import Mathlib

/-!
Verification of the TodoApp task tracker: the auth + ownership contract
(Auth Service, Task Store, API Boundary) and the frontend request/routing
logic (API client 401 handling, Next.js route-protection middleware).

The repository ships only the Next.js frontend; the FastAPI backend
(Auth Service, Task Store, API Boundary) is referenced by the frontend and
described in the design document but its source is not present.  Backend
definitions below are therefore modelled from the spec, as marked in their
doc comments.  Frontend definitions (`handleResponse`, `middleware`,
`handleTaskCreated`) are shallow embeddings of the TypeScript source.
-/

namespace TodoApp

/-! ### Task Store data model (modelled from the spec, section 3 and 4.2) -/

/-- Errors the Task Store can produce (spec, section 7). -/
inductive StoreError
  | ValidationError
  | NotFound
deriving DecidableEq, Repr

/-- Modelled from the spec: the Task record of section 3 — identifier,
owner (the User identifier that created it), title, completed flag and
created/updated timestamps. -/
structure Task where
  id : Nat
  owner : Nat
  title : String
  completed : Bool
  createdAt : Nat
  updatedAt : Nat
deriving DecidableEq, Repr

/-- Modelled from the spec: the task table.  Tasks are kept
newest-created-first (creation prepends); `nextId` is the next identifier
to assign, so creation order coincides with ascending `id`. -/
structure TaskStore where
  tasks : List Task
  nextId : Nat
deriving DecidableEq, Repr

/-- Whitespace trimming at the character-list level (the backend is
Python, whose strip removes whitespace characters from both ends). -/
def charTrim (l : List Char) : List Char :=
  ((l.dropWhile Char.isWhitespace).reverse.dropWhile Char.isWhitespace).reverse

/-- Trim surrounding whitespace from a string. -/
def strTrim (s : String) : String := String.mk (charTrim s.data)

/-- Length of a string in characters (code points). -/
def strLength (s : String) : Nat := s.data.length

/-- Does `s` start with `pre` (JS String.startsWith), at the
character-list level. -/
def strStartsWith (s pre : String) : Bool := pre.data.isPrefixOf s.data

/-- Modelled from the spec: a title is valid when, after trimming
surrounding whitespace, it is non-empty and at most 500 characters. -/
def validTitle (title : String) : Bool :=
  let t := strTrim title
  !(t == "") && decide (strLength t ≤ 500)

/-- Modelled from the spec: the owner-scoped lookup predicate used by every
mutating operation; the owner identifier is part of the filter, never
checked after the fact (spec, section 4.2). -/
def taskPred (ownerId taskId : Nat) (t : Task) : Bool :=
  t.owner == ownerId && t.id == taskId

/-- Modelled from the spec: owner-scoped lookup of a single task. -/
def findTask (st : TaskStore) (ownerId taskId : Nat) : Option Task :=
  st.tasks.find? (taskPred ownerId taskId)

/-- Modelled from the spec: `list(ownerId)` returns all tasks owned by
`ownerId`; the store keeps tasks newest-created-first, so a plain
owner filter preserves that order. -/
def list (st : TaskStore) (ownerId : Nat) : List Task :=
  st.tasks.filter (fun t => t.owner == ownerId)

/-- Modelled from the spec: `create(ownerId, title)` — validates the title,
then stores a new task with `completed = false`, owner `ownerId`, a fresh
identifier, and both timestamps set to `now`.  Errors leave the store
untouched. -/
def create (st : TaskStore) (ownerId : Nat) (title : String) (now : Nat) :
    Except StoreError Task × TaskStore :=
  if validTitle title then
    let t : Task := ⟨st.nextId, ownerId, title, false, now, now⟩
    (.ok t, ⟨t :: st.tasks, st.nextId + 1⟩)
  else
    (.error .ValidationError, st)

/-- Modelled from the spec: the single owner-scoped UPDATE — every row
matching the owner-and-id filter is replaced by `t'`, all others are kept
in place (order preserved). -/
def replaceTask (tasks : List Task) (ownerId taskId : Nat) (t' : Task) : List Task :=
  tasks.map (fun u => if taskPred ownerId taskId u then t' else u)

/-- Modelled from the spec: `updateTitle(ownerId, taskId, newTitle)` —
existence and ownership are checked first (else `NotFound`), then the new
title is validated as in create (else `ValidationError`); on success the
title and `updated_at` are refreshed. -/
def updateTitle (st : TaskStore) (ownerId taskId : Nat) (newTitle : String) (now : Nat) :
    Except StoreError Task × TaskStore :=
  match findTask st ownerId taskId with
  | none => (.error .NotFound, st)
  | some t =>
    if validTitle newTitle then
      let t' : Task := { t with title := newTitle, updatedAt := now }
      (.ok t', { st with tasks := replaceTask st.tasks ownerId taskId t' })
    else
      (.error .ValidationError, st)

/-- Modelled from the spec: `toggleCompletion(ownerId, taskId)` —
existence and ownership as above; on success `completed` is flipped
(a toggle, not a set-to-value) and `updated_at` refreshed. -/
def toggleCompletion (st : TaskStore) (ownerId taskId : Nat) (now : Nat) :
    Except StoreError Task × TaskStore :=
  match findTask st ownerId taskId with
  | none => (.error .NotFound, st)
  | some t =>
    let t' : Task := { t with completed := !t.completed, updatedAt := now }
    (.ok t', { st with tasks := replaceTask st.tasks ownerId taskId t' })

/-- Modelled from the spec: `delete(ownerId, taskId)` — existence and
ownership as above; on success the matching row is permanently removed. -/
def deleteTask (st : TaskStore) (ownerId taskId : Nat) :
    Except StoreError Nat × TaskStore :=
  match findTask st ownerId taskId with
  | none => (.error .NotFound, st)
  | some t =>
    (.ok t.id, { st with tasks := st.tasks.filter (fun u => !taskPred ownerId taskId u) })

/-- Tasks listed newest-created-first: strictly descending identifiers
(identifiers are assigned in creation order). -/
def NewestFirst (l : List Task) : Prop :=
  l.Sorted (fun a b => b.id < a.id)

/-- Store invariant: tasks are held newest-first and every stored id is
below the next id to be assigned. -/
def WellFormed (st : TaskStore) : Prop :=
  NewestFirst st.tasks ∧ ∀ t ∈ st.tasks, t.id < st.nextId

/-! ### Auth Service (modelled from the spec, sections 3 and 4.1) -/

/-- Errors the Auth Service can produce (spec, section 7). -/
inductive AuthError
  | DuplicateCredential
  | InvalidInput
  | InvalidCredentials
  | TokenInvalid
  | TokenExpired
deriving DecidableEq, Repr

/-- Modelled from the spec: the User record — opaque identifier, unique
email, salted one-way password hash (never the plaintext), creation
timestamp. -/
structure AuthUser where
  id : Nat
  email : String
  passwordHash : List Char
  createdAt : Nat
deriving DecidableEq, Repr

/-- Modelled from the spec: the salt of the one-way password hash. -/
def passwordSalt : List Char := "todoapp-salt:".data

/-- Modelled from the spec: a salted one-way hash, modelled as an
injective function of the password so that hash comparison agrees with
password equality; the stored value is never the raw password string. -/
def hashPassword (pw : String) : List Char :=
  passwordSalt ++ pw.data

/-- Modelled from the spec: token claims — subject (User id), issued-at
and expiry timestamps. -/
structure TokenClaims where
  sub : Nat
  iat : Nat
  exp : Nat
deriving DecidableEq, Repr

/-- Modelled from the spec: a signed stateless bearer token — claims plus
a signature computed over the claims with the shared secret. -/
structure Token where
  claims : TokenClaims
  sig : Nat
deriving DecidableEq, Repr

/-- Modelled from the spec: the signature over the claims using the
symmetric shared secret (a model of the JWT HMAC: any function of the
secret and every claim field). -/
def sign (secret : Nat) (c : TokenClaims) : Nat :=
  secret + 2 * c.sub + 3 * c.iat + 5 * c.exp

/-- Modelled from the spec: the fixed expiry window — 24 hours from
issuance, in seconds. -/
def tokenLifetime : Nat := 24 * 60 * 60

/-- Modelled from the spec: token issuance sets subject, issued-at = now,
expiry = now plus the fixed window, and signs with the shared secret. -/
def issueToken (secret sub now : Nat) : Token :=
  let c : TokenClaims := ⟨sub, now, now + tokenLifetime⟩
  ⟨c, sign secret c⟩

/-- Modelled from the spec: `verify(token)` — the signature must validate
against the shared secret (else `TokenInvalid`) and the current time must
be before the expiry claim (else `TokenExpired`); on success it returns
the subject identifier.  Pure; no side effects. -/
def verify (secret : Nat) (tok : Token) (now : Nat) : Except AuthError Nat :=
  if tok.sig = sign secret tok.claims then
    if now < tok.claims.exp then .ok tok.claims.sub
    else .error .TokenExpired
  else .error .TokenInvalid

/-- Modelled from the spec: the user table of the Auth Service. -/
structure AuthState where
  users : List AuthUser
  nextId : Nat
deriving DecidableEq, Repr

/-- Modelled from the spec: the minimum password length policy. -/
def minPasswordLength : Nat := 8

/-- Modelled from the spec: look up a user by its sign-in email. -/
def findUser (st : AuthState) (email : String) : Option AuthUser :=
  st.users.find? (fun u => u.email == email)

/-- Modelled from the spec: `signup(email, password)` — the email must be
fresh (else `DuplicateCredential`) and the password long enough (else
`InvalidInput`); on success a new User with a hashed password is stored
and returned together with a freshly issued Token. -/
def signup (st : AuthState) (secret : Nat) (email pw : String) (now : Nat) :
    Except AuthError (AuthUser × Token) × AuthState :=
  if (findUser st email).isSome then (.error .DuplicateCredential, st)
  else if pw.length < minPasswordLength then (.error .InvalidInput, st)
  else
    let u : AuthUser := ⟨st.nextId, email, hashPassword pw, now⟩
    (.ok (u, issueToken secret u.id now), ⟨u :: st.users, st.nextId + 1⟩)

/-- Modelled from the spec: `signin(email, password)` — the email must
exist and the password hash must match, else the single generic
`InvalidCredentials`; on success the existing User and a fresh Token. -/
def signin (st : AuthState) (secret : Nat) (email pw : String) (now : Nat) :
    Except AuthError (AuthUser × Token) :=
  match findUser st email with
  | none => .error .InvalidCredentials
  | some u =>
    if u.passwordHash = hashPassword pw then .ok (u, issueToken secret u.id now)
    else .error .InvalidCredentials

/-! ### API Boundary (modelled from the spec, section 4.3) -/

/-- The task operations dispatched by the API Boundary. -/
inductive StoreOp
  | listOp
  | createOp (title : String)
  | updateOp (taskId : Nat) (title : String)
  | toggleOp (taskId : Nat)
  | deleteOp (taskId : Nat)
deriving DecidableEq, Repr

/-- Outcome of an API request, after mapping store errors to the HTTP-level
taxonomy of section 7. -/
inductive ApiOutcome
  | tasksList (tasks : List Task) (count : Nat)
  | singleTask (t : Task)
  | deletedId (id : Nat)
  | unauthorized
  | validationError
  | notFound
deriving DecidableEq, Repr

/-- Modelled from the spec: run one Task Store operation on behalf of the
verified owner identity `ownerId`. -/
def runStoreOp (st : TaskStore) (ownerId : Nat) (op : StoreOp) (now : Nat) :
    ApiOutcome × TaskStore :=
  match op with
  | .listOp =>
    (.tasksList (list st ownerId) (list st ownerId).length, st)
  | .createOp title =>
    match create st ownerId title now with
    | (.ok t, st') => (.singleTask t, st')
    | (.error _, st') => (.validationError, st')
  | .updateOp taskId title =>
    match updateTitle st ownerId taskId title now with
    | (.ok t, st') => (.singleTask t, st')
    | (.error .NotFound, st') => (.notFound, st')
    | (.error .ValidationError, st') => (.validationError, st')
  | .toggleOp taskId =>
    match toggleCompletion st ownerId taskId now with
    | (.ok t, st') => (.singleTask t, st')
    | (.error _, st') => (.notFound, st')
  | .deleteOp taskId =>
    match deleteTask st ownerId taskId with
    | (.ok i, st') => (.deletedId i, st')
    | (.error _, st') => (.notFound, st')

/-- An authenticated API request.  `claimedOwner` stands for any
client-supplied owner field in the body or path; it is part of the model
precisely so that the boundary can be seen to ignore it. -/
structure ApiRequest where
  token : Token
  claimedOwner : Option Nat
  op : StoreOp
deriving DecidableEq, Repr

/-- Modelled from the spec: the API Boundary — verify the bearer token;
on failure respond Unauthorized with no store access, on success thread
the verified subject identifier as the `ownerId` of the store call.  The
client-claimed owner field is never consulted. -/
def dispatch (secret : Nat) (st : TaskStore) (req : ApiRequest) (now : Nat) :
    ApiOutcome × TaskStore :=
  match verify secret req.token now with
  | .error _ => (.unauthorized, st)
  | .ok uid => runStoreOp st uid req.op now

/-! ### Frontend API client, response handling
(src/frontend/src/lib/api/client.ts, APIClient.request) -/

/-- The error body shape parsed from a failed response
(interface APIError in client.ts). -/
structure APIErrorBody where
  error : String
  message : String
deriving DecidableEq, Repr

/-- The browser-side state the client touches: the token under the
localStorage key auth-token, and window.location.href. -/
structure ClientState where
  storedToken : Option String
  location : String
deriving DecidableEq, Repr

/-- Outcome of APIClient.request as seen by the caller: the promise
resolves, or rejects with an Error carrying this message. -/
inductive RequestOutcome
  | resolved
  | thrown (message : String)
deriving DecidableEq, Repr

/-- response.ok of the fetch API: status in [200, 300). -/
def respOk (status : Nat) : Bool :=
  decide (200 ≤ status) && decide (status < 300)

/-- An HTTP response as the client consumes it: the status code, and the
body parsed as an error shape (`none` when the body does not parse as
JSON, in which case client.ts substitutes a RequestError fallback). -/
structure HttpResponse where
  status : Nat
  errorBody : Option APIErrorBody
deriving DecidableEq, Repr

/-- Response handling of APIClient.request
(src/frontend/src/lib/api/client.ts, lines 52 to 74): status 401 clears
the stored token, navigates to /signin?error=session_expired and throws
the fixed message Authentication required; any other non-ok status throws
the server message, falling back to an HTTP-status message when the body
is unparseable or the message field is empty (the JS or-else on a falsy
string); an ok status resolves.  The request url is carried to reflect
that the handling never branches on it. -/
def handleResponse (cs : ClientState) (url : String) (resp : HttpResponse) :
    RequestOutcome × ClientState :=
  if resp.status == 401 then
    (.thrown "Authentication required",
      { storedToken := none, location := "/signin?error=session_expired" })
  else if !respOk resp.status then
    let eb : APIErrorBody :=
      match resp.errorBody with
      | some e => e
      | none => ⟨"RequestError", "HTTP " ++ toString resp.status⟩
    (.thrown (if eb.message == "" then "HTTP " ++ toString resp.status else eb.message), cs)
  else
    (.resolved, cs)

/-! ### Frontend dashboard state update
(src/frontend/src/app/dashboard/page.tsx, handleTaskCreated) -/

/-- handleTaskCreated of the dashboard page: setTasks([newTask, ...tasks])
— the freshly created task is prepended to the current list. -/
def handleTaskCreated (newTask : Task) (tasks : List Task) : List Task :=
  newTask :: tasks

/-! ### Next.js route-protection middleware (src/frontend/middleware.ts) -/

/-- The part of a NextRequest the middleware reads: the pathname and the
auth-token cookie (`none` when the cookie is absent; `some v` when present
with value `v`, possibly empty). -/
structure MwRequest where
  pathname : String
  authCookie : Option String
deriving DecidableEq, Repr

/-- The middleware response: redirect to /signin carrying the original
path in the redirect query parameter, redirect to /dashboard, or
NextResponse.next(). -/
inductive MwResult
  | redirectSignin (redirectParam : String)
  | redirectDashboard
  | next
deriving DecidableEq, Repr

/-- JS truthiness of `request.cookies.get(..)?.value`: undefined and the
empty string are falsy; every other string is truthy. -/
def cookieTruthy : Option String → Bool
  | none => false
  | some s => !(s == "")

/-- The middleware function (src/frontend/middleware.ts, lines 9 to 34):
a protected path (one starting with /dashboard) without a truthy
auth-token cookie redirects to /signin with the original pathname as the
redirect parameter; exactly /signin or /signup with a truthy cookie
redirects to /dashboard; everything else passes through. -/
def middleware (r : MwRequest) : MwResult :=
  let token := cookieTruthy r.authCookie
  let isProtectedRoute := strStartsWith r.pathname "/dashboard"
  if isProtectedRoute && !token then
    .redirectSignin r.pathname
  else if (r.pathname == "/signin" || r.pathname == "/signup") && token then
    .redirectDashboard
  else
    .next

/-! ### Helper lemmas -/

/-- Characterisation of successful token verification. -/
theorem verify_eq_ok_iff (secret : Nat) (tok : Token) (now uid : Nat) :
    verify secret tok now = .ok uid ↔
      (tok.sig = sign secret tok.claims ∧ now < tok.claims.exp ∧ uid = tok.claims.sub) := by
  constructor
  · intro h
    by_cases h1 : tok.sig = sign secret tok.claims
    · by_cases h2 : now < tok.claims.exp
      · simp only [verify, if_pos h1, if_pos h2, Except.ok.injEq] at h
        exact ⟨h1, h2, h.symm⟩
      · simp [verify, if_pos h1, if_neg h2] at h
    · simp [verify, if_neg h1] at h
  · rintro ⟨h1, h2, h3⟩
    simp [verify, if_pos h1, if_pos h2, h3]

/-- A valid title is exactly one whose trimmed form is non-empty and at
most 500 characters. -/
theorem validTitle_eq_true_iff (title : String) :
    validTitle title = true ↔
      (strTrim title ≠ "" ∧ strLength (strTrim title) ≤ 500) := by
  simp [validTitle]

/-! ### Claim theorems -/

/-- Claim C3: verify(token) succeeds and returns the subject identifier
encoded in the token if and only if the signature validates against the
shared secret and the current time is before the expiry claim; at or
after expiry it always fails with an unauthenticated outcome (TokenExpired
or TokenInvalid), never a stale success.  The model is a pure function,
matching the no-side-effects clause. -/
theorem c3_verify_correct (secret : Nat) (tok : Token) (now : Nat) :
    (∀ uid, verify secret tok now = .ok uid ↔
      (tok.sig = sign secret tok.claims ∧ now < tok.claims.exp ∧ uid = tok.claims.sub)) ∧
    (tok.claims.exp ≤ now →
      verify secret tok now = .error .TokenExpired ∨
      verify secret tok now = .error .TokenInvalid) := by
  refine ⟨fun uid => verify_eq_ok_iff secret tok now uid, fun hexp => ?_⟩
  by_cases h1 : tok.sig = sign secret tok.claims
  · left
    simp [verify, if_pos h1, if_neg (Nat.not_lt.mpr hexp)]
  · right
    simp [verify, if_neg h1]

/-- Witness for C3 at a concrete expired token. -/
theorem c3_verify_correct_witness :
    verify 7 (issueToken 7 42 0) 86400 = .error AuthError.TokenExpired ∨
    verify 7 (issueToken 7 42 0) 86400 = .error AuthError.TokenInvalid :=
  (c3_verify_correct 7 (issueToken 7 42 0) 86400).2 (by decide)

/-- Claim C9: every response with HTTP status 401 received through the
shared API client — whatever the request url, so in particular a failed
signin or signup — clears the stored token, navigates to
/signin?error=session_expired, and throws the fixed message
Authentication required; the outcome does not depend on the response
body, so the server's 401 body is never surfaced. -/
theorem c9_client_401_handling (cs : ClientState) (url : String)
    (body : Option APIErrorBody) :
    handleResponse cs url ⟨401, body⟩ =
      (.thrown "Authentication required",
        ⟨none, "/signin?error=session_expired"⟩) := rfl

/-- Counterexample for C10 as stated: a request to /dashboard carrying an
auth-token cookie with the empty value falls in the claim's pass-through
category (it carries the cookie, and its path is not /signin or /signup),
yet the middleware redirects it to /signin — JS truthiness treats the
empty cookie value as absent. -/
theorem c10_counterexample :
    middleware ⟨"/dashboard", some ""⟩ = MwResult.redirectSignin "/dashboard" ∧
    middleware ⟨"/dashboard", some ""⟩ ≠ MwResult.next := by
  decide

/-- Claim C10, amended: the middleware decides solely on the presence of
a non-empty auth-token cookie (an empty cookie value counts as absent),
never on its validity: a path starting with /dashboard without a
non-empty cookie is redirected to /signin with the original path as the
redirect parameter; exactly /signin or /signup with a non-empty cookie is
redirected to /dashboard; every other request passes through. -/
theorem c10_middleware_protection :
    (∀ r : MwRequest, strStartsWith r.pathname "/dashboard" = true →
        cookieTruthy r.authCookie = false →
        middleware r = .redirectSignin r.pathname) ∧
    (∀ r : MwRequest, (r.pathname = "/signin" ∨ r.pathname = "/signup") →
        cookieTruthy r.authCookie = true →
        middleware r = .redirectDashboard) ∧
    (∀ r : MwRequest,
        ¬(strStartsWith r.pathname "/dashboard" = true ∧
            cookieTruthy r.authCookie = false) →
        ¬((r.pathname = "/signin" ∨ r.pathname = "/signup") ∧
            cookieTruthy r.authCookie = true) →
        middleware r = .next) := by
  refine ⟨?_, ?_, ?_⟩
  · intro r h1 h2
    simp [middleware, h1, h2]
  · intro r h1 h2
    rcases h1 with h | h <;> simp [middleware, h, h2, strStartsWith]
  · intro r h1 h2
    cases hd : strStartsWith r.pathname "/dashboard" <;>
      cases hc : cookieTruthy r.authCookie
    · simp [middleware, hd, hc]
    · have hs : ¬(r.pathname = "/signin" ∨ r.pathname = "/signup") :=
        fun hs => h2 ⟨hs, hc⟩
      push_neg at hs
      simp [middleware, hd, hc, hs.1, hs.2]
    · exact absurd ⟨hd, hc⟩ h1
    · have hs : ¬(r.pathname = "/signin" ∨ r.pathname = "/signup") :=
        fun hs => h2 ⟨hs, hc⟩
      push_neg at hs
      simp [middleware, hd, hc, hs.1, hs.2]

/-- Witness for the amended C10 at concrete requests from each branch. -/
theorem c10_middleware_protection_witness :
    middleware ⟨"/dashboard/settings", none⟩ = MwResult.redirectSignin "/dashboard/settings" ∧
    middleware ⟨"/signin", some "tok"⟩ = MwResult.redirectDashboard ∧
    middleware ⟨"/about", none⟩ = MwResult.next :=
  ⟨c10_middleware_protection.1 ⟨"/dashboard/settings", none⟩ (by decide) (by decide),
   c10_middleware_protection.2.1 ⟨"/signin", some "tok"⟩ (Or.inl rfl) (by decide),
   c10_middleware_protection.2.2 ⟨"/about", none⟩ (by decide) (by decide)⟩

/-- Claim C4: create(ownerId, title) succeeds iff the trimmed title is
non-empty and at most 500 characters; on success the new Task has
completed = false and owner = ownerId; otherwise the operation fails with
ValidationError and leaves the store untouched. -/
theorem c4_create_validation (st : TaskStore) (ownerId : Nat) (title : String) (now : Nat) :
    ((∃ t st', create st ownerId title now = (.ok t, st')) ↔
      (strTrim title ≠ "" ∧ strLength (strTrim title) ≤ 500)) ∧
    (∀ t st', create st ownerId title now = (.ok t, st') →
      t.completed = false ∧ t.owner = ownerId) ∧
    (¬(strTrim title ≠ "" ∧ strLength (strTrim title) ≤ 500) →
      create st ownerId title now = (.error .ValidationError, st)) := by
  by_cases hv : validTitle title = true
  · have hc : strTrim title ≠ "" ∧ strLength (strTrim title) ≤ 500 :=
      (validTitle_eq_true_iff title).mp hv
    refine ⟨⟨fun _ => hc, fun _ => ?_⟩, ?_, fun hn => absurd hc hn⟩
    · exact ⟨⟨st.nextId, ownerId, title, false, now, now⟩,
        ⟨⟨st.nextId, ownerId, title, false, now, now⟩ :: st.tasks, st.nextId + 1⟩,
        by simp [create, hv]⟩
    · intro t st' h
      simp only [create, if_pos hv, Prod.mk.injEq, Except.ok.injEq] at h
      rw [← h.1]
      exact ⟨rfl, rfl⟩
  · have hc : ¬(strTrim title ≠ "" ∧ strLength (strTrim title) ≤ 500) :=
      fun hc => hv ((validTitle_eq_true_iff title).mpr hc)
    have hv' : validTitle title = false := by
      simpa using hv
    refine ⟨⟨?_, fun h => absurd h hc⟩, ?_, fun _ => by simp [create, hv']⟩
    · rintro ⟨t, st', h⟩
      simp [create, hv'] at h
    · intro t st' h
      simp [create, hv'] at h

/-- Witness for C4: a whitespace-only title is rejected and leaves the
store unchanged; a concrete valid creation yields completed = false and
the caller as owner. -/
theorem c4_create_validation_witness :
    create ⟨[], 5⟩ 1 "   " 0 = (.error StoreError.ValidationError, ⟨[], 5⟩) ∧
    ((⟨5, 1, "Buy milk", false, 0, 0⟩ : Task).completed = false ∧
      (⟨5, 1, "Buy milk", false, 0, 0⟩ : Task).owner = 1) :=
  ⟨(c4_create_validation ⟨[], 5⟩ 1 "   " 0).2.2 (by decide),
   (c4_create_validation ⟨[], 5⟩ 1 "Buy milk" 0).2.1
      ⟨5, 1, "Buy milk", false, 0, 0⟩ ⟨[⟨5, 1, "Buy milk", false, 0, 0⟩], 6⟩ rfl⟩

/-- Claim C6: a title update whose new title is empty or whitespace-only
(trims to the empty string) on an existing owned task fails with
ValidationError and returns the store exactly as it was: no mutation is
issued on the error path. -/
theorem c6_update_empty_title_unchanged (st : TaskStore) (ownerId taskId : Nat)
    (newTitle : String) (now : Nat) (t : Task)
    (hfind : findTask st ownerId taskId = some t)
    (hempty : strTrim newTitle = "") :
    updateTitle st ownerId taskId newTitle now = (.error .ValidationError, st) := by
  have hv : validTitle newTitle = false := by
    simp [validTitle, hempty]
  simp [updateTitle, hfind, hv]

/-- Witness for C6 at a concrete store holding one task. -/
theorem c6_update_empty_title_unchanged_witness :
    updateTitle ⟨[⟨1, 1, "a", false, 0, 0⟩], 2⟩ 1 1 "  " 5 =
      (.error StoreError.ValidationError, ⟨[⟨1, 1, "a", false, 0, 0⟩], 2⟩) :=
  c6_update_empty_title_unchanged ⟨[⟨1, 1, "a", false, 0, 0⟩], 2⟩ 1 1 "  " 5
    ⟨1, 1, "a", false, 0, 0⟩ (by decide) (by decide)

/-- If a list has a first match for `p` and the replacement `t'` itself
satisfies `p`, then after replacing every match by `t'` the first match
is `t'`. -/
theorem find?_map_replace (p : Task → Bool) (t' : Task) (h' : p t' = true)
    (l : List Task) :
    ∀ t : Task, l.find? p = some t →
      (l.map fun u => if p u then t' else u).find? p = some t' := by
  induction l with
  | nil =>
    intro t h
    simp at h
  | cons a l ih =>
    intro t h
    by_cases hpa : p a = true
    · simp [List.map_cons, if_pos hpa, List.find?_cons_of_pos _ h']
    · have hpa' : p a = false := by simpa using hpa
      rw [List.find?_cons_of_neg _ hpa] at h
      simp only [List.map_cons, if_neg hpa]
      rw [List.find?_cons_of_neg _ hpa]
      exact ih t h

/-- Claim C5: for an existing task owned by the caller, one
toggleCompletion call flips the completed boolean, and a second call on
the resulting store returns it to the original value — toggling is an
involution, not idempotent. -/
theorem c5_toggle_involution (st : TaskStore) (ownerId taskId now now₂ : Nat) (t : Task)
    (hfind : findTask st ownerId taskId = some t) :
    ∃ t₁ t₂,
      (toggleCompletion st ownerId taskId now).1 = .ok t₁ ∧
      t₁.completed = !t.completed ∧
      (toggleCompletion (toggleCompletion st ownerId taskId now).2 ownerId taskId now₂).1 = .ok t₂ ∧
      t₂.completed = t.completed := by
  have hp : taskPred ownerId taskId t = true := List.find?_some hfind
  have h1 : toggleCompletion st ownerId taskId now =
      (.ok { t with completed := !t.completed, updatedAt := now },
        { st with tasks := (replaceTask st.tasks ownerId taskId
            { t with completed := !t.completed, updatedAt := now }) }) := by
    simp [toggleCompletion, hfind]
  have hfind₁ : findTask (toggleCompletion st ownerId taskId now).2 ownerId taskId =
      some { t with completed := !t.completed, updatedAt := now } := by
    rw [h1]
    exact find?_map_replace (taskPred ownerId taskId)
      { t with completed := !t.completed, updatedAt := now } hp st.tasks t hfind
  generalize hst₁ : (toggleCompletion st ownerId taskId now).2 = st₁ at hfind₁ ⊢
  have h2 : (toggleCompletion st₁ ownerId taskId now₂).1 =
      .ok { t with completed := !(!t.completed), updatedAt := now₂ } := by
    simp [toggleCompletion, hfind₁]
  refine ⟨{ t with completed := !t.completed, updatedAt := now },
    { t with completed := !(!t.completed), updatedAt := now₂ }, ?_, rfl, h2, by simp⟩
  rw [h1]

/-- Witness for C5 at a concrete one-task store. -/
theorem c5_toggle_involution_witness :
    ∃ t₁ t₂,
      (toggleCompletion ⟨[⟨1, 1, "a", false, 0, 0⟩], 2⟩ 1 1 3).1 = .ok t₁ ∧
      t₁.completed = !(⟨1, 1, "a", false, 0, 0⟩ : Task).completed ∧
      (toggleCompletion (toggleCompletion ⟨[⟨1, 1, "a", false, 0, 0⟩], 2⟩ 1 1 3).2 1 1 4).1 = .ok t₂ ∧
      t₂.completed = (⟨1, 1, "a", false, 0, 0⟩ : Task).completed :=
  c5_toggle_involution ⟨[⟨1, 1, "a", false, 0, 0⟩], 2⟩ 1 1 3 4
    ⟨1, 1, "a", false, 0, 0⟩ (by decide)

/-- When every task carrying the requested id belongs to `A` and the
request is scoped to a different identity `B`, the owner-scoped lookup
finds nothing. -/
theorem findTask_eq_none_of_other_owner (st : TaskStore) (A B taskId : Nat)
    (hAB : A ≠ B)
    (hOwn : ∀ t ∈ st.tasks, t.id = taskId → t.owner = A) :
    findTask st B taskId = none := by
  unfold findTask
  rw [List.find?_eq_none]
  intro t ht
  simp only [taskPred, Bool.and_eq_true, beq_iff_eq, not_and]
  intro hB hid
  exact hAB ((hOwn t ht hid) ▸ hB ▸ rfl)

/-- Claim C1: per-user isolation.  For distinct users A and B: a list
scoped to B returns no task of A (everything it returns is owned by B,
hence counted totals include none of A's tasks); a create scoped to B
leaves A's tasks exactly as they were; and when a task id belongs to A,
B's update, toggle and delete attempts all fail with NotFound and leave
the store untouched. -/
theorem c1_per_user_isolation (st : TaskStore) (A B taskId : Nat)
    (title newTitle : String) (now : Nat)
    (hAB : A ≠ B)
    (hOwn : ∀ t ∈ st.tasks, t.id = taskId → t.owner = A) :
    (∀ t ∈ list st B, t.owner ≠ A) ∧
    ((create st B title now).2.tasks.filter (fun t => t.owner == A) =
      st.tasks.filter (fun t => t.owner == A)) ∧
    updateTitle st B taskId newTitle now = (.error .NotFound, st) ∧
    toggleCompletion st B taskId now = (.error .NotFound, st) ∧
    deleteTask st B taskId = (.error .NotFound, st) := by
  have hnone : findTask st B taskId = none :=
    findTask_eq_none_of_other_owner st A B taskId hAB hOwn
  refine ⟨?_, ?_, ?_, ?_, ?_⟩
  · intro t ht hA
    have hB : t.owner = B := by
      have := (List.mem_filter.mp ht).2
      simpa using this
    exact hAB (hA ▸ hB)
  · by_cases hv : validTitle title = true
    · have hBA : ((B : Nat) == A) = false := by
        simp [Ne.symm hAB]
      simp [create, hv, List.filter_cons, hBA]
    · have hv' : validTitle title = false := by simpa using hv
      simp [create, hv']
  · simp [updateTitle, hnone]
  · simp [toggleCompletion, hnone]
  · simp [deleteTask, hnone]

/-- Witness for C1: a store holding one task of user 1, accessed by
user 2. -/
theorem c1_per_user_isolation_witness :
    (∀ t ∈ list ⟨[⟨7, 1, "a", false, 0, 0⟩], 8⟩ 2, t.owner ≠ 1) ∧
    ((create ⟨[⟨7, 1, "a", false, 0, 0⟩], 8⟩ 2 "b" 3).2.tasks.filter (fun t => t.owner == 1) =
      (⟨[⟨7, 1, "a", false, 0, 0⟩], 8⟩ : TaskStore).tasks.filter (fun t => t.owner == 1)) ∧
    updateTitle ⟨[⟨7, 1, "a", false, 0, 0⟩], 8⟩ 2 7 "c" 3 =
      (.error StoreError.NotFound, ⟨[⟨7, 1, "a", false, 0, 0⟩], 8⟩) ∧
    toggleCompletion ⟨[⟨7, 1, "a", false, 0, 0⟩], 8⟩ 2 7 3 =
      (.error StoreError.NotFound, ⟨[⟨7, 1, "a", false, 0, 0⟩], 8⟩) ∧
    deleteTask ⟨[⟨7, 1, "a", false, 0, 0⟩], 8⟩ 2 7 =
      (.error StoreError.NotFound, ⟨[⟨7, 1, "a", false, 0, 0⟩], 8⟩) :=
  c1_per_user_isolation ⟨[⟨7, 1, "a", false, 0, 0⟩], 8⟩ 1 2 7 "b" "c" 3
    (by decide) (by decide)

/-- Claim C7: list(ownerId) returns exactly the tasks owned by ownerId,
in newest-created-first order (strictly descending creation ids), and
prepending a freshly created task to the front of such a list — as the
dashboard handleTaskCreated does after create — preserves the
newest-first order. -/
theorem c7_list_newest_first (st : TaskStore) (ownerId : Nat) (title : String) (now : Nat)
    (hwf : WellFormed st) :
    (∀ t, t ∈ list st ownerId ↔ (t ∈ st.tasks ∧ t.owner = ownerId)) ∧
    NewestFirst (list st ownerId) ∧
    (∀ t st', create st ownerId title now = (.ok t, st') →
      NewestFirst (handleTaskCreated t (list st ownerId))) := by
  refine ⟨?_, ?_, ?_⟩
  · intro t
    simp [list, List.mem_filter]
  · exact List.Pairwise.filter _ hwf.1
  · intro t st' h
    by_cases hv : validTitle title = true
    · simp only [create, if_pos hv, Prod.mk.injEq, Except.ok.injEq] at h
      unfold handleTaskCreated NewestFirst
      rw [List.sorted_cons]
      refine ⟨?_, List.Pairwise.filter _ hwf.1⟩
      intro u hu
      have hlt : u.id < st.nextId := hwf.2 u (List.mem_filter.mp hu).1
      rw [← h.1]
      exact hlt
    · have hv' : validTitle title = false := by simpa using hv
      simp [create, hv'] at h

/-- Witness for C7 at a concrete two-task store. -/
theorem c7_list_newest_first_witness :
    (∀ t, t ∈ list ⟨[⟨7, 1, "a", false, 0, 0⟩, ⟨3, 2, "b", true, 0, 0⟩], 8⟩ 1 ↔
      (t ∈ (⟨[⟨7, 1, "a", false, 0, 0⟩, ⟨3, 2, "b", true, 0, 0⟩], 8⟩ : TaskStore).tasks ∧
        t.owner = 1)) ∧
    NewestFirst (list ⟨[⟨7, 1, "a", false, 0, 0⟩, ⟨3, 2, "b", true, 0, 0⟩], 8⟩ 1) ∧
    (∀ t st', create ⟨[⟨7, 1, "a", false, 0, 0⟩, ⟨3, 2, "b", true, 0, 0⟩], 8⟩ 1 "c" 9 = (.ok t, st') →
      NewestFirst (handleTaskCreated t (list ⟨[⟨7, 1, "a", false, 0, 0⟩, ⟨3, 2, "b", true, 0, 0⟩], 8⟩ 1))) :=
  c7_list_newest_first ⟨[⟨7, 1, "a", false, 0, 0⟩, ⟨3, 2, "b", true, 0, 0⟩], 8⟩ 1 "c" 9
    ⟨by unfold NewestFirst; decide, by decide⟩

/-- Claim C8: for every valid signup input with a fresh email, a
subsequent signin with the same email and password succeeds, and the
token it yields verifies (within its validity window) to a subject equal
to the id of the user created by the signup. -/
theorem c8_signup_signin_roundtrip (st : AuthState) (secret : Nat) (email pw : String)
    (now now₂ tv : Nat)
    (hfresh : findUser st email = none)
    (hpw : minPasswordLength ≤ pw.length)
    (htime : tv < now₂ + tokenLifetime) :
    signup st secret email pw now =
      (.ok (⟨st.nextId, email, hashPassword pw, now⟩, issueToken secret st.nextId now),
        ⟨⟨st.nextId, email, hashPassword pw, now⟩ :: st.users, st.nextId + 1⟩) ∧
    signin ⟨⟨st.nextId, email, hashPassword pw, now⟩ :: st.users, st.nextId + 1⟩
        secret email pw now₂ =
      .ok (⟨st.nextId, email, hashPassword pw, now⟩, issueToken secret st.nextId now₂) ∧
    verify secret (issueToken secret st.nextId now₂) tv = .ok st.nextId := by
  refine ⟨?_, ?_, ?_⟩
  · simp [signup, hfresh, Nat.not_lt.mpr hpw]
  · simp [signin, findUser]
  · simp [verify, issueToken, htime]

/-- Witness for C8 with a concrete fresh user. -/
theorem c8_signup_signin_roundtrip_witness :
    signup ⟨[], 1⟩ 3 "alice@example.com" "password123" 0 =
      (.ok (⟨1, "alice@example.com", hashPassword "password123", 0⟩, issueToken 3 1 0),
        ⟨[⟨1, "alice@example.com", hashPassword "password123", 0⟩], 2⟩) ∧
    signin ⟨[⟨1, "alice@example.com", hashPassword "password123", 0⟩], 2⟩
        3 "alice@example.com" "password123" 10 =
      .ok (⟨1, "alice@example.com", hashPassword "password123", 0⟩, issueToken 3 1 10) ∧
    verify 3 (issueToken 3 1 10) 20 = .ok 1 :=
  c8_signup_signin_roundtrip ⟨[], 1⟩ 3 "alice@example.com" "password123" 0 10 20
    rfl (by decide) (by decide)

/-- Claim C2: the owner identity of every Task Store call is exactly the
subject extracted from the verified bearer token, never a client-supplied
field: two requests with the same token but different client-claimed
owner values produce identical results, and on successful verification
the dispatch runs the store operation under the token's subject. -/
theorem c2_owner_from_token_only (secret : Nat) (st : TaskStore) (tok : Token)
    (op : StoreOp) (now : Nat) (co₁ co₂ : Option Nat) :
    dispatch secret st ⟨tok, co₁, op⟩ now = dispatch secret st ⟨tok, co₂, op⟩ now ∧
    (∀ uid, verify secret tok now = .ok uid →
      dispatch secret st ⟨tok, co₁, op⟩ now = runStoreOp st uid op now ∧
      uid = tok.claims.sub) := by
  refine ⟨rfl, fun uid h => ⟨?_, ((verify_eq_ok_iff secret tok now uid).mp h).2.2⟩⟩
  simp [dispatch, h]

/-- Witness for C2 at a concrete verified request. -/
theorem c2_owner_from_token_only_witness :
    dispatch 3 ⟨[], 1⟩ ⟨issueToken 3 9 0, some 4, .listOp⟩ 5 =
      runStoreOp ⟨[], 1⟩ 9 .listOp 5 ∧ 9 = (issueToken 3 9 0).claims.sub :=
  (c2_owner_from_token_only 3 ⟨[], 1⟩ (issueToken 3 9 0) .listOp 5 (some 4) (some 6)).2 9 rfl

end TodoApp

